import Mathlib

/-!
Verification of the AquaShield water-quality prediction service.

The development shallowly embeds the Python modules of
`src/microservice/main/` into Lean:

* `predict.py`  — input range validation and the human-readable
  prediction wrapper (`validate_input_parameters`,
  `get_water_quality_prediction`, `predictWaterQuality`);
* `download.py` — model persistence and the saved-model predictor
  (`save_trained_model`, `load_trained_model`,
  `predict_with_saved_model`);
* `main.py`     — the Flask `/api/predict` POST handler
  (`predict_water_quality`);
* `train.py`    — selection of the best model by test accuracy.

Python floats are modelled by `ℚ` (the code only compares, orders and
copies them).  sklearn estimator objects are modelled functionally: an
imputer and a scaler are `List ℚ → List ℚ` transforms, a classifier is
a `List ℚ → Int` predictor together with an optional
`List ℚ → ℚ × ℚ` probability function (`none` models a classifier
whose `predict_proba` raises `AttributeError`, e.g. `SVC` with
`probability=False`).  Pickled objects on disk are opaque values of a
type parameter `α`.  The filesystem is modelled as the listing of the
single model directory: an association list from file name (relative
to `model_dir`, whose constant path prefix is dropped) to file
content; overwriting on save is modelled by prepending, since lookup
returns the most recent entry.
-/

/-- A JSON value appearing in the request body, as seen by `float(...)`:
either a value that `float` converts to the rational `q`, or a value on
which `float` raises `ValueError`/`TypeError`. -/
inductive JVal where
  | num : ℚ → JVal
  | nonNum : JVal
deriving DecidableEq, Repr

/-- `float(v)` from `main.py` lines 138-146: `some` on numeric values,
`none` models the raised `ValueError`/`TypeError`. -/
def pyFloat : JVal → Option ℚ
  | JVal.num q => some q
  | JVal.nonNum => none

/-- The nine extracted request parameters (`main.py` lines 138-146). -/
structure WaterParams where
  ph : ℚ
  hardness : ℚ
  solids : ℚ
  chloramines : ℚ
  sulfate : ℚ
  conductivity : ℚ
  organic_carbon : ℚ
  trihalomethanes : ℚ
  turbidity : ℚ
deriving DecidableEq, Repr

/-- `ranges` dict of `predict.py` lines 122-132: documented
(min, max) per parameter. -/
def ranges : List (String × ℚ × ℚ) :=
  [("ph", 0, 14), ("hardness", 0, 1000), ("solids", 0, 100000),
   ("chloramines", 0, 20), ("sulfate", 0, 1000), ("conductivity", 0, 2000),
   ("organic_carbon", 0, 50), ("trihalomethanes", 0, 200), ("turbidity", 0, 20)]

/-- The warning string built at `predict.py` line 144
(`f"{param_name} ({value}) is outside typical range ({min_val}-{max_val})"`). -/
def outsideRangeMsg (name : String) (value lo hi : ℚ) : String :=
  name ++ " (" ++ toString value ++ ") is outside typical range ("
    ++ toString lo ++ "-" ++ toString hi ++ ")"

/-- `validate_input_parameters` of `predict.py` lines 111-146: walks the
`params` dict in insertion order, appends one warning per parameter
falling outside its documented range, and returns
`(len(warnings) == 0, warnings)`. -/
def validate_input_parameters (ph hardness solids chloramines sulfate
    conductivity organic_carbon trihalomethanes turbidity : ℚ) :
    Bool × List String :=
  let params : List (String × ℚ) :=
    [("ph", ph), ("hardness", hardness), ("solids", solids),
     ("chloramines", chloramines), ("sulfate", sulfate),
     ("conductivity", conductivity), ("organic_carbon", organic_carbon),
     ("trihalomethanes", trihalomethanes), ("turbidity", turbidity)]
  let warnings := params.foldl (fun ws pv =>
    match ranges.lookup pv.1 with
    | some r =>
        if ¬ (r.1 ≤ pv.2 ∧ pv.2 ≤ r.2) then
          ws ++ [outsideRangeMsg pv.1 pv.2 r.1 r.2]
        else ws
    | none => ws) []
  (warnings.length == 0, warnings)

/-- Functional view of the loaded sklearn components used by
`predict_with_saved_model` (`download.py` lines 165-189). -/
structure ModelComponents where
  imputer_transform : List ℚ → List ℚ
  scaler_transform : List ℚ → List ℚ
  model_predict : List ℚ → Int
  model_predict_proba : Option (List ℚ → ℚ × ℚ)
  feature_names : List String

/-- `predict_with_saved_model` of `download.py` lines 152-189: builds the
single-row feature array in the fixed order, imputes, scales, predicts,
and returns the probability pair when `predict_proba` is available
(`none` models the `AttributeError` branch returning `None`). -/
def predict_with_saved_model (mc : ModelComponents)
    (ph hardness solids chloramines sulfate conductivity organic_carbon
     trihalomethanes turbidity : ℚ) : Int × Option (ℚ × ℚ) :=
  let input_data : List ℚ :=
    [ph, hardness, solids, chloramines, sulfate, conductivity,
     organic_carbon, trihalomethanes, turbidity]
  let input_imputed := mc.imputer_transform input_data
  let input_scaled := mc.scaler_transform input_imputed
  let prediction := mc.model_predict input_scaled
  match mc.model_predict_proba with
  | some f => (prediction, some (f input_scaled))
  | none => (prediction, none)

/-- `predictWaterQuality` of `predict.py` lines 23-62: loads the model
components (here an argument, since the Python global is filled once at
startup) and delegates to `predict_with_saved_model`. -/
def predictWaterQuality (mc : ModelComponents)
    (ph hardness solids chloramines sulfate conductivity organic_carbon
     trihalomethanes turbidity : ℚ) : Int × Option (ℚ × ℚ) :=
  predict_with_saved_model mc ph hardness solids chloramines sulfate
    conductivity organic_carbon trihalomethanes turbidity

/-- Result dictionary of `get_water_quality_prediction`
(`predict.py` lines 87-107). -/
structure DetailedResult where
  prediction : Int
  is_safe_to_drink : Bool
  safety_status : String
  confidence : Option ℚ
  probability_safe : Option ℚ
  probability_not_safe : Option ℚ
  input_parameters : Option (List (String × ℚ))

/-- `get_water_quality_prediction` of `predict.py` lines 64-109. -/
def get_water_quality_prediction (mc : ModelComponents)
    (ph hardness solids chloramines sulfate conductivity organic_carbon
     trihalomethanes turbidity : ℚ) (return_details : Bool) :
    DetailedResult :=
  let pr := predictWaterQuality mc ph hardness solids chloramines sulfate
    conductivity organic_carbon trihalomethanes turbidity
  let prediction := pr.1
  let probability := pr.2
  let is_safe := prediction == 1
  { prediction := prediction
    is_safe_to_drink := is_safe
    safety_status := if is_safe then "Safe to drink" else "Not safe to drink"
    confidence := probability.map (fun p => max p.1 p.2)
    probability_safe := probability.map (fun p => p.2)
    probability_not_safe := probability.map (fun p => p.1)
    input_parameters :=
      if return_details then
        some [("ph", ph), ("hardness", hardness), ("solids", solids),
              ("chloramines", chloramines), ("sulfate", sulfate),
              ("conductivity", conductivity),
              ("organic_carbon", organic_carbon),
              ("trihalomethanes", trihalomethanes),
              ("turbidity", turbidity)]
      else none }

/-- `required_params` of `main.py` lines 122-125. -/
def required_params : List String :=
  ["ph", "hardness", "solids", "chloramines", "sulfate",
   "conductivity", "organic_carbon", "trihalomethanes", "turbidity"]

/-- The missing-parameter list comprehension of `main.py` line 128. -/
def missing_params (data : List (String × JVal)) : List String :=
  required_params.filter (fun p => (data.lookup p).isNone)

/-- The `float(...)` extraction block of `main.py` lines 137-146,
converting the nine request values in source order; `none` models the
caught `ValueError`/`TypeError`. -/
def extract_parameters (data : List (String × JVal)) : Option WaterParams := do
  let ph ← (data.lookup "ph").bind pyFloat
  let hardness ← (data.lookup "hardness").bind pyFloat
  let solids ← (data.lookup "solids").bind pyFloat
  let chloramines ← (data.lookup "chloramines").bind pyFloat
  let sulfate ← (data.lookup "sulfate").bind pyFloat
  let conductivity ← (data.lookup "conductivity").bind pyFloat
  let organic_carbon ← (data.lookup "organic_carbon").bind pyFloat
  let trihalomethanes ← (data.lookup "trihalomethanes").bind pyFloat
  let turbidity ← (data.lookup "turbidity").bind pyFloat
  some { ph := ph, hardness := hardness, solids := solids,
         chloramines := chloramines, sulfate := sulfate,
         conductivity := conductivity, organic_carbon := organic_carbon,
         trihalomethanes := trihalomethanes, turbidity := turbidity }

/-- The `response` JSON object of `main.py` lines 173-203 (the
`prediction`, `input_parameters` and `validation` sections; the
timestamp metadata carries no verified content). -/
structure PredictionResponse where
  raw_prediction : Int
  is_safe_to_drink : Bool
  safety_status : String
  confidence : Option ℚ
  prob_not_safe : Option ℚ
  prob_safe : Option ℚ
  input_parameters : List (String × ℚ)
  validation_is_valid : Bool
  validation_warnings : List String
deriving DecidableEq, Repr

/-- Builds the success-response body of `main.py` lines 173-203 from the
raw prediction, the probability pair, the parsed parameters and the
validation outcome. -/
def buildPredictionResponse (prediction : Int) (probability : Option (ℚ × ℚ))
    (p : WaterParams) (is_valid : Bool) (warnings : List String) :
    PredictionResponse :=
  { raw_prediction := prediction
    is_safe_to_drink := prediction == 1
    safety_status := if prediction == 1 then "Safe to drink" else "Not safe to drink"
    confidence := probability.map (fun q => max q.1 q.2)
    prob_not_safe := probability.map (fun q => q.1)
    prob_safe := probability.map (fun q => q.2)
    input_parameters :=
      [("ph", p.ph), ("hardness", p.hardness), ("solids", p.solids),
       ("chloramines", p.chloramines), ("sulfate", p.sulfate),
       ("conductivity", p.conductivity),
       ("organic_carbon", p.organic_carbon),
       ("trihalomethanes", p.trihalomethanes), ("turbidity", p.turbidity)]
    validation_is_valid := is_valid
    validation_warnings := warnings }

/-- Outcome of one POST `/api/predict` request (`main.py` lines 86-214):
the success body, or one of the error replies (503 model-not-loaded,
400 no-input, 400 missing-parameters, 400 invalid-values, and the
catch-all 500 of the outer `except`). -/
inductive ApiResult where
  | ok : PredictionResponse → ApiResult
  | modelNotLoaded : ApiResult
  | noInputData : ApiResult
  | missingParams : List String → ApiResult
  | invalidParamValues : ApiResult
  | predictionFailed : ApiResult
deriving DecidableEq, Repr

/-- The `/api/predict` POST handler `predict_water_quality` of
`main.py` lines 86-214.  `body` is the parsed JSON object
(`request.get_json()`), `none` when absent.  The final `match` on the
probability models line 205: `logger.info(f"... {max(probability):.3f}")`
raises `TypeError` when `probability` is `None`, which the outer
`except` turns into the 500 "Prediction failed" reply before
`return jsonify(response)` is reached. -/
def predict_water_quality (model_loaded : Bool) (mc : ModelComponents)
    (body : Option (List (String × JVal))) : ApiResult :=
  if model_loaded = false then ApiResult.modelNotLoaded
  else
    match body with
    | none => ApiResult.noInputData
    | some data =>
      if data.isEmpty then ApiResult.noInputData
      else
        let missing := missing_params data
        if missing.isEmpty = false then ApiResult.missingParams missing
        else
          match extract_parameters data with
          | none => ApiResult.invalidParamValues
          | some p =>
            let v := validate_input_parameters p.ph p.hardness p.solids
              p.chloramines p.sulfate p.conductivity p.organic_carbon
              p.trihalomethanes p.turbidity
            let pr := predictWaterQuality mc p.ph p.hardness p.solids
              p.chloramines p.sulfate p.conductivity p.organic_carbon
              p.trihalomethanes p.turbidity
            let _detailed := get_water_quality_prediction mc p.ph p.hardness
              p.solids p.chloramines p.sulfate p.conductivity
              p.organic_carbon p.trihalomethanes p.turbidity true
            let response := buildPredictionResponse pr.1 pr.2 p v.1 v.2
            match pr.2 with
            | none => ApiResult.predictionFailed
            | some _ => ApiResult.ok response

/-- Metadata dict written by `save_trained_model`
(`download.py` lines 46-59). -/
structure Metadata where
  model_name : String
  model_type : String
  accuracy : ℚ
  feature_names : List String
  training_date : String
  model_file : String
  scaler_file : String
  imputer_file : String
  preprocessing_steps : List String
deriving DecidableEq, Repr

/-- Content of one file in the model directory: a joblib pickle of an
opaque object `α`, the metadata JSON, or the all-models comparison JSON
(name, accuracy, type name). -/
inductive FileContent (α : Type) where
  | pickle : α → FileContent α
  | metaJson : Metadata → FileContent α
  | comparisonJson : List (String × ℚ × String) → FileContent α
deriving DecidableEq, Repr

/-- Listing of the model directory (`model_dir`): file name (relative to
the directory, the constant `f"{model_dir}/"` prefix dropped) to file
content.  Writing prepends, so `List.lookup` sees the newest version of
an overwritten file. -/
def ModelDir (α : Type) : Type := List (String × FileContent α)

/-- One entry of the `results` dict of `train.py` lines 87-91. -/
structure ModelResult (α : Type) where
  model : α
  accuracy : ℚ
  predictions : List Int
deriving DecidableEq, Repr

/-- The filename dict returned by `save_trained_model`
(`download.py` lines 79-85). -/
structure SavedFiles where
  model_file : String
  scaler_file : String
  imputer_file : String
  metadata_file : String
  results_file : String
deriving DecidableEq, Repr

/-- `f"water_quality_model_{timestamp}.pkl"` (`download.py` line 31). -/
def model_filename (t : String) : String := "water_quality_model_" ++ t ++ ".pkl"

/-- `f"scaler_{timestamp}.pkl"` (`download.py` line 36). -/
def scaler_filename (t : String) : String := "scaler_" ++ t ++ ".pkl"

/-- `f"imputer_{timestamp}.pkl"` (`download.py` line 41). -/
def imputer_filename (t : String) : String := "imputer_" ++ t ++ ".pkl"

/-- `f"model_metadata_{timestamp}.json"` (`download.py` line 61). -/
def metadata_filename (t : String) : String := "model_metadata_" ++ t ++ ".json"

/-- `f"all_models_comparison_{timestamp}.json"` (`download.py` line 74). -/
def comparison_filename (t : String) : String := "all_models_comparison_" ++ t ++ ".json"

/-- The metadata record assembled at `download.py` lines 46-59. -/
def saved_metadata (best_model_name model_type : String) (accuracy : ℚ)
    (feature_names : List String) (timestamp : String) : Metadata :=
  { model_name := best_model_name
    model_type := model_type
    accuracy := accuracy
    feature_names := feature_names
    training_date := timestamp
    model_file := model_filename timestamp
    scaler_file := scaler_filename timestamp
    imputer_file := imputer_filename timestamp
    preprocessing_steps :=
      ["SimpleImputer with mean strategy", "StandardScaler normalization"] }

/-- `save_trained_model` of `download.py` lines 9-85.  `typeName` models
Python's `type(obj).__name__`; `timestamp` is the
`datetime.now().strftime("%Y%m%d_%H%M%S")` string, taken as an argument;
`dir` is the directory listing before the call.  Returns the filename
dict together with the listing after the five writes; `none` models the
`KeyError` when `best_model_name` is not a key of `results`. -/
def save_trained_model {α : Type} (results : List (String × ModelResult α))
    (best_model_name : String) (typeName : α → String) (scaler imputer : α)
    (feature_names : List String) (timestamp : String) (dir : ModelDir α) :
    Option (SavedFiles × ModelDir α) :=
  match results.lookup best_model_name with
  | none => none
  | some best =>
    let best_model := best.model
    let dir1 : ModelDir α := (model_filename timestamp, FileContent.pickle best_model) :: dir
    let dir2 : ModelDir α := (scaler_filename timestamp, FileContent.pickle scaler) :: dir1
    let dir3 : ModelDir α := (imputer_filename timestamp, FileContent.pickle imputer) :: dir2
    let metadata := saved_metadata best_model_name (typeName best_model)
      best.accuracy feature_names timestamp
    let dir4 : ModelDir α := (metadata_filename timestamp, FileContent.metaJson metadata) :: dir3
    let all_results := results.map (fun nr => (nr.1, nr.2.accuracy, typeName nr.2.model))
    let dir5 : ModelDir α := (comparison_filename timestamp, FileContent.comparisonJson all_results) :: dir4
    some ({ model_file := model_filename timestamp
            scaler_file := scaler_filename timestamp
            imputer_file := imputer_filename timestamp
            metadata_file := metadata_filename timestamp
            results_file := comparison_filename timestamp }, dir5)

/-- The dict returned by `load_trained_model`
(`download.py` lines 140-145). -/
structure LoadedComponents (α : Type) where
  model : α
  scaler : α
  imputer : α
  metadata : Metadata
deriving DecidableEq, Repr

/-- `joblib.load` on a file expected to be a pickle: `none` models both a
missing file (`FileNotFoundError`) and a non-pickle content. -/
def lookupPickle {α : Type} (dir : ModelDir α) (name : String) : Option α :=
  match dir.lookup name with
  | some (FileContent.pickle a) => some a
  | _ => none

/-- `json.load` on a file expected to be the metadata JSON. -/
def lookupMetaJson {α : Type} (dir : ModelDir α) (name : String) : Option Metadata :=
  match dir.lookup name with
  | some (FileContent.metaJson m) => some m
  | _ => none

/-- If `pat` is a prefix of `s`, the remainder of `s` after it. -/
def stripPre : List Char → List Char → Option (List Char)
  | [], s => some s
  | _ :: _, [] => none
  | p :: ps, c :: cs => if p = c then stripPre ps cs else none

/-- Python's `str.startswith`, on the character lists (kernel-computable
stand-in for the built-in, with the same code-point semantics). -/
def pyStartsWith (s pat : String) : Bool := (stripPre pat.data s.data).isSome

/-- Python's `str.replace` scan, replacing non-overlapping occurrences
left to right; the fuel argument (instantiated with the string length)
only makes the recursion structural and is never exhausted for a
nonempty pattern. -/
def pyReplaceAux (pat rep : List Char) : Nat → List Char → List Char
  | _, [] => []
  | 0, s => s
  | fuel + 1, c :: cs =>
    match stripPre pat (c :: cs) with
    | some rest => rep ++ pyReplaceAux pat rep fuel rest
    | none => c :: pyReplaceAux pat rep fuel cs

/-- Python's `str.replace(pat, rep)` (kernel-computable stand-in for the
built-in, with the same semantics on nonempty patterns). -/
def pyReplace (s pat rep : String) : String :=
  String.mk (pyReplaceAux pat.data rep.data s.data.length s.data)

/-- Python's `<` on two strings: code-point lexicographic comparison
(kernel-computable stand-in for the built-in order). -/
def pyStrLt : List Char → List Char → Bool
  | _, [] => false
  | [], _ :: _ => true
  | a :: as, b :: bs =>
    if a.toNat < b.toNat then true
    else if b.toNat < a.toNat then false
    else pyStrLt as bs

/-- The `model_files` listing filter of `download.py` line 104
(`os.listdir` entries starting with `"water_quality_model_"`). -/
def model_files {α : Type} (dir : ModelDir α) : List String :=
  (dir.map Prod.fst).filter (fun f => pyStartsWith f "water_quality_model_")

/-- Timestamp extraction of `download.py` lines 110-113:
`f.replace("water_quality_model_", "").replace(".pkl", "")` over the
model files. -/
def extracted_timestamps {α : Type} (dir : ModelDir α) : List String :=
  (model_files dir).map
    (fun f => pyReplace (pyReplace f "water_quality_model_" "") ".pkl" "")

/-- Python's `max` on a list of strings: `none` on the empty list
(`ValueError`); otherwise keeps the first element on ties and replaces
the running best only on a strictly greater element. -/
def pyMax : List String → Option String
  | [] => none
  | x :: xs =>
      some (xs.foldl (fun a b => if pyStrLt a.data b.data then b else a) x)

/-- The timestamp-selection branch of `load_trained_model`
(`download.py` lines 103-114): `none` models the `FileNotFoundError`
raised when no model file exists; otherwise `max(timestamps)`. -/
def chosen_timestamp {α : Type} (dir : ModelDir α) : Option String :=
  if (model_files dir).isEmpty then none
  else pyMax (extracted_timestamps dir)

/-- `load_trained_model` of `download.py` lines 87-150: resolves the
timestamp (the given one, or the most recent), then loads the model,
scaler, imputer and metadata files of that timestamp; `none` models the
raised errors. -/
def load_trained_model {α : Type} (dir : ModelDir α)
    (timestamp : Option String) : Option (LoadedComponents α) := do
  let t ← match timestamp with
    | some t0 => some t0
    | none => chosen_timestamp dir
  let model ← lookupPickle dir (model_filename t)
  let scaler ← lookupPickle dir (scaler_filename t)
  let imputer ← lookupPickle dir (imputer_filename t)
  let metadata ← lookupMetaJson dir (metadata_filename t)
  some { model := model, scaler := scaler, imputer := imputer,
         metadata := metadata }

/-- The keys of the `models` dict of `train.py` lines 62-70: the seven
trained candidates. -/
def trained_model_names : List String :=
  ["Random Forest", "Extra Trees", "Logistic Regression", "SVM",
   "K-Neighbors", "Naive Bayes", "Decision Tree"]

/-- `max(results.keys(), key=lambda k: results[k]['accuracy'])` of
`train.py` line 99, returning the whole entry: Python's `max` walks the
dict in insertion order and replaces the running best only on a strictly
greater key value. -/
def best_entry {α : Type} (results : List (String × ModelResult α)) :
    Option (String × ModelResult α) :=
  match results with
  | [] => none
  | e :: rest =>
      some (rest.foldl (fun b x => if b.2.accuracy < x.2.accuracy then x else b) e)

/-- `best_model_name` of `train.py` line 99. -/
def best_model_name_of {α : Type} (results : List (String × ModelResult α)) :
    Option String :=
  (best_entry results).map Prod.fst

/-- Concrete functional components whose classifier exposes
`predict_proba` (identity preprocessing, constant class-1 prediction),
used to instantiate the handler theorems. -/
def mcWithProba : ModelComponents :=
  { imputer_transform := id
    scaler_transform := id
    model_predict := fun _ => 1
    model_predict_proba := some (fun _ => (0, 1))
    feature_names := required_params }

/-- Concrete functional components whose classifier raises
`AttributeError` from `predict_proba` — like the `SVM` candidate
`SVC(random_state=42)` of `train.py` line 66, which is trained with
`probability=False`. -/
def mcNoProba : ModelComponents :=
  { imputer_transform := id
    scaler_transform := id
    model_predict := fun _ => 0
    model_predict_proba := none
    feature_names := required_params }

/-- The documented example request body of `main.py` lines 92-102
(all nine values inside their documented ranges). -/
def inRangeBody : List (String × JVal) :=
  [("ph", JVal.num 7), ("hardness", JVal.num 200), ("solids", JVal.num 20000),
   ("chloramines", JVal.num 7), ("sulfate", JVal.num 300),
   ("conductivity", JVal.num 400), ("organic_carbon", JVal.num 15),
   ("trihalomethanes", JVal.num 70), ("turbidity", JVal.num 4)]

/-- A second all-in-range numeric body. -/
def inRangeBody2 : List (String × JVal) :=
  [("ph", JVal.num 6), ("hardness", JVal.num 150), ("solids", JVal.num 15000),
   ("chloramines", JVal.num 6), ("sulfate", JVal.num 250),
   ("conductivity", JVal.num 350), ("organic_carbon", JVal.num 12),
   ("trihalomethanes", JVal.num 60), ("turbidity", JVal.num 3)]

/-- A numeric body whose `ph` value 99 is far outside the documented
0-14 range. -/
def outOfRangeBody : List (String × JVal) :=
  [("ph", JVal.num 99), ("hardness", JVal.num 200), ("solids", JVal.num 20000),
   ("chloramines", JVal.num 7), ("sulfate", JVal.num 300),
   ("conductivity", JVal.num 400), ("organic_carbon", JVal.num 15),
   ("trihalomethanes", JVal.num 70), ("turbidity", JVal.num 4)]

/-- The parameters extracted from `outOfRangeBody`. -/
def outOfRangeParams : WaterParams :=
  { ph := 99, hardness := 200, solids := 20000, chloramines := 7,
    sulfate := 300, conductivity := 400, organic_carbon := 15,
    trihalomethanes := 70, turbidity := 4 }

/-- Fixture: a one-entry results dict for the round-trip witness. -/
def c7Results : List (String × ModelResult ℕ) :=
  [("Random Forest", { model := 11, accuracy := 7, predictions := [1, 0] })]

/-- Fixture: a concrete results dict over the seven candidates, with
the SVM entry (accuracy 68) the strict maximum. -/
def c8Results : List (String × ModelResult ℕ) :=
  [("Random Forest", { model := 1, accuracy := 65, predictions := [] }),
   ("Extra Trees", { model := 2, accuracy := 64, predictions := [] }),
   ("Logistic Regression", { model := 3, accuracy := 50, predictions := [] }),
   ("SVM", { model := 4, accuracy := 68, predictions := [] }),
   ("K-Neighbors", { model := 5, accuracy := 62, predictions := [] }),
   ("Naive Bayes", { model := 6, accuracy := 61, predictions := [] }),
   ("Decision Tree", { model := 7, accuracy := 58, predictions := [] })]

/-- Fixture: the SVM entry of `c8Results`, its accuracy maximum. -/
def c8Best : String × ModelResult ℕ :=
  ("SVM", { model := 4, accuracy := 68, predictions := [] })

/-- Fixture: metadata for the most recent model in `demoDir`. -/
def demoMeta : Metadata :=
  { model_name := "Random Forest"
    model_type := "RandomForestClassifier"
    accuracy := 1
    feature_names := ["ph"]
    training_date := "20250102_000000"
    model_file := "water_quality_model_20250102_000000.pkl"
    scaler_file := "scaler_20250102_000000.pkl"
    imputer_file := "imputer_20250102_000000.pkl"
    preprocessing_steps := [] }

/-- Fixture: a model directory with two saved model generations, the
20250102 one the most recent. -/
def demoDir : ModelDir ℕ :=
  [("water_quality_model_20250102_000000.pkl", FileContent.pickle 1),
   ("scaler_20250102_000000.pkl", FileContent.pickle 2),
   ("imputer_20250102_000000.pkl", FileContent.pickle 3),
   ("model_metadata_20250102_000000.json", FileContent.metaJson demoMeta),
   ("water_quality_model_20250101_000000.pkl", FileContent.pickle 9)]

example : (validate_input_parameters 7 200 20000 7 300 400 15 70 4).1 = true := by decide

example : (validate_input_parameters 99 200 20000 7 300 400 15 70 4).2.length = 1 := by decide

example : pyMax ["20240101_000000", "20250101_020000", "20250101_010000"] = some "20250101_020000" := by decide

example :
    best_entry [("a", ({ model := 1, accuracy := 1, predictions := [] } : ModelResult ℕ)),
      ("b", { model := 2, accuracy := 3, predictions := [] }),
      ("c", { model := 3, accuracy := 3, predictions := [] })] =
      some ("b", { model := 2, accuracy := 3, predictions := [] }) := by decide

example : pyReplace "water_quality_model_20250101_010000.pkl" "water_quality_model_" "" = "20250101_010000.pkl" := by decide

example : pyReplace "water_quality_model_20250101_010000.pkl" ".pkl" "" = "water_quality_model_20250101_010000" := by decide

example : pyStartsWith "water_quality_model_x.pkl" "water_quality_model_" = true := by decide

example : pyStartsWith "scaler_x.pkl" "water_quality_model_" = false := by decide

/-! Helper lemmas. -/

lemma pyStrLt_irrefl : ∀ a : List Char, pyStrLt a a = false := by
  intro a
  induction a with
  | nil => rfl
  | cons x xs ih => simp [pyStrLt, ih]

lemma pyStrLt_trans : ∀ a b c : List Char, pyStrLt a b = true →
    pyStrLt b c = true → pyStrLt a c = true := by
  intro a
  induction a with
  | nil =>
    intro b c h1 h2
    cases b with
    | nil => simp [pyStrLt] at h1
    | cons y ys =>
      cases c with
      | nil => simp [pyStrLt] at h2
      | cons z zs => rfl
  | cons x xs ih =>
    intro b c h1 h2
    cases b with
    | nil => simp [pyStrLt] at h1
    | cons y ys =>
      cases c with
      | nil => simp [pyStrLt] at h2
      | cons z zs =>
        simp only [pyStrLt] at h1 h2 ⊢
        by_cases hxy : x.toNat < y.toNat
        · by_cases hyz : y.toNat < z.toNat
          · rw [if_pos (show x.toNat < z.toNat by omega)]
          · simp [hyz] at h2
            rw [if_pos (show x.toNat < z.toNat by omega)]
        · simp [hxy] at h1
          by_cases hyz : y.toNat < z.toNat
          · rw [if_pos (show x.toNat < z.toNat by omega)]
          · simp [hyz] at h2
            rw [if_neg (show ¬ x.toNat < z.toNat by omega),
              if_neg (show ¬ z.toNat < x.toNat by omega)]
            exact ih ys zs h1.2 h2.2

lemma pyStrLt_of_lt_of_not_lt : ∀ a b c : List Char, pyStrLt a b = true →
    pyStrLt c b = false → pyStrLt a c = true := by
  intro a
  induction a with
  | nil =>
    intro b c h1 h2
    cases b with
    | nil => simp [pyStrLt] at h1
    | cons y ys =>
      cases c with
      | nil => simp [pyStrLt] at h2
      | cons z zs => rfl
  | cons x xs ih =>
    intro b c h1 h2
    cases b with
    | nil => simp [pyStrLt] at h1
    | cons y ys =>
      cases c with
      | nil => simp [pyStrLt] at h2
      | cons z zs =>
        simp only [pyStrLt] at h1 h2 ⊢
        by_cases hzy : z.toNat < y.toNat
        · simp [hzy] at h2
        · by_cases hxy : x.toNat < y.toNat
          · rw [if_pos (show x.toNat < z.toNat by omega)]
          · simp [hxy] at h1
            by_cases hyz : y.toNat < z.toNat
            · rw [if_pos (show x.toNat < z.toNat by omega)]
            · simp [hzy, hyz] at h2
              rw [if_neg (show ¬ x.toNat < z.toNat by omega),
                if_neg (show ¬ z.toNat < x.toNat by omega)]
              exact ih ys zs h1.2 h2

lemma pyFoldMax_spec : ∀ (xs : List String) (x : String),
    (xs.foldl (fun a b => if pyStrLt a.data b.data then b else a) x = x ∨
      xs.foldl (fun a b => if pyStrLt a.data b.data then b else a) x ∈ xs) ∧
    pyStrLt (xs.foldl (fun a b => if pyStrLt a.data b.data then b else a) x).data
      x.data = false ∧
    ∀ y ∈ xs,
      pyStrLt (xs.foldl (fun a b => if pyStrLt a.data b.data then b else a) x).data
        y.data = false := by
  intro xs
  induction xs with
  | nil => exact fun x => ⟨Or.inl rfl, pyStrLt_irrefl x.data, by simp⟩
  | cons b bs ih =>
    intro x
    simp only [List.foldl_cons]
    obtain ⟨hmem, hinit, hall⟩ := ih (if pyStrLt x.data b.data then b else x)
    by_cases hc : pyStrLt x.data b.data
    · rw [if_pos hc] at hmem hinit hall ⊢
      refine ⟨?_, ?_, ?_⟩
      · rcases hmem with h | h
        · exact Or.inr (by rw [h]; exact List.mem_cons_self b bs)
        · exact Or.inr (List.mem_cons_of_mem b h)
      · cases hrx : pyStrLt (bs.foldl (fun a b => if pyStrLt a.data b.data then b else a) b).data x.data
        · rfl
        · exact absurd (pyStrLt_trans _ _ _ hrx hc) (by simp [hinit])
      · intro y hy
        rcases List.mem_cons.mp hy with h | h
        · exact h ▸ hinit
        · exact hall y h
    · rw [if_neg hc] at hmem hinit hall ⊢
      rw [Bool.not_eq_true] at hc
      refine ⟨?_, hinit, ?_⟩
      · rcases hmem with h | h
        · exact Or.inl h
        · exact Or.inr (List.mem_cons_of_mem b h)
      · intro y hy
        rcases List.mem_cons.mp hy with h | h
        · subst h
          cases hrb : pyStrLt (bs.foldl (fun a b => if pyStrLt a.data b.data then b else a) x).data y.data
          · rfl
          · exact absurd (pyStrLt_of_lt_of_not_lt _ _ _ hrb hc) (by simp [hinit])
        · exact hall y h

lemma bestFold_spec {α : Type} :
    ∀ (xs : List (String × ModelResult α)) (x : String × ModelResult α),
    (xs.foldl (fun b p => if b.2.accuracy < p.2.accuracy then p else b) x = x ∨
      xs.foldl (fun b p => if b.2.accuracy < p.2.accuracy then p else b) x ∈ xs) ∧
    x.2.accuracy ≤
      (xs.foldl (fun b p => if b.2.accuracy < p.2.accuracy then p else b) x).2.accuracy ∧
    ∀ y ∈ xs, y.2.accuracy ≤
      (xs.foldl (fun b p => if b.2.accuracy < p.2.accuracy then p else b) x).2.accuracy := by
  intro xs
  induction xs with
  | nil => exact fun x => ⟨Or.inl rfl, le_refl _, by simp⟩
  | cons b bs ih =>
    intro x
    simp only [List.foldl_cons]
    obtain ⟨hmem, hinit, hall⟩ := ih (if x.2.accuracy < b.2.accuracy then b else x)
    by_cases hc : x.2.accuracy < b.2.accuracy
    · rw [if_pos hc] at hmem hinit hall ⊢
      refine ⟨?_, le_trans (le_of_lt hc) hinit, ?_⟩
      · rcases hmem with h | h
        · exact Or.inr (by rw [h]; exact List.mem_cons_self b bs)
        · exact Or.inr (List.mem_cons_of_mem b h)
      · intro y hy
        rcases List.mem_cons.mp hy with h | h
        · exact h ▸ hinit
        · exact hall y h
    · rw [if_neg hc] at hmem hinit hall ⊢
      refine ⟨?_, hinit, ?_⟩
      · rcases hmem with h | h
        · exact Or.inl h
        · exact Or.inr (List.mem_cons_of_mem b h)
      · intro y hy
        rcases List.mem_cons.mp hy with h | h
        · exact h ▸ le_trans (le_of_not_lt hc) hinit
        · exact hall y h

lemma lookup_of_mem_of_nodup {γ : Type} :
    ∀ (l : List (String × γ)) (e : String × γ), e ∈ l →
      (l.map Prod.fst).Nodup → l.lookup e.1 = some e.2 := by
  intro l
  induction l with
  | nil => intro e he; exact absurd he (List.not_mem_nil e)
  | cons kv rest ih =>
    intro e he hn
    rcases List.mem_cons.mp he with h | h
    · subst h
      simp [List.lookup]
    · have hk : e.1 ≠ kv.1 := by
        intro hek
        have : kv.1 ∈ rest.map Prod.fst := hek ▸ List.mem_map_of_mem Prod.fst h
        exact (List.nodup_cons.mp (by simpa using hn)).1 this
      have hrest : (rest.map Prod.fst).Nodup := (List.nodup_cons.mp (by simpa using hn)).2
      calc (kv :: rest).lookup e.1 = rest.lookup e.1 := by
            cases kv with
            | mk k v => simp [List.lookup, beq_eq_false_iff_ne.mpr hk]
        _ = some e.2 := ih e h hrest

lemma sandwich_ne (p1 s1 p2 s2 t : String)
    (h : p1.length + s1.length ≠ p2.length + s2.length) :
    p1 ++ t ++ s1 ≠ p2 ++ t ++ s2 := by
  intro heq
  apply h
  have hl := congrArg String.length heq
  simp only [String.length_append] at hl
  omega

lemma lookup_cons_ne {γ : Type} (a k : String) (v : γ) (l : List (String × γ))
    (h : a ≠ k) : ((k, v) :: l).lookup a = l.lookup a := by
  simp [List.lookup, beq_eq_false_iff_ne.mpr h]

lemma warnPiece_len_zero (c : Prop) [Decidable c] (m : String) :
    ((if ¬ c then [m] else ([] : List String)).length = 0) ↔ c := by
  by_cases h : c <;> simp [h]

lemma warn_step_append (ws : List String) (c : Prop) [Decidable c] (m : String) :
    (if c then ws ++ [m] else ws) = ws ++ (if c then [m] else []) := by
  by_cases h : c <;> simp [h]

/-! Claim theorems. -/

/-- C2: for all nine inputs, `validate_input_parameters` returns
`is_valid` true iff every parameter lies in its documented inclusive
range, `warnings` holds exactly one message per violating parameter (in
parameter order), and `is_valid` is true iff `warnings` is empty. -/
theorem validate_input_parameters_correct
    (ph hardness solids chloramines sulfate conductivity organic_carbon
     trihalomethanes turbidity : ℚ) :
    ((validate_input_parameters ph hardness solids chloramines sulfate
        conductivity organic_carbon trihalomethanes turbidity).1 = true ↔
      ((0 ≤ ph ∧ ph ≤ 14) ∧ (0 ≤ hardness ∧ hardness ≤ 1000) ∧
       (0 ≤ solids ∧ solids ≤ 100000) ∧ (0 ≤ chloramines ∧ chloramines ≤ 20) ∧
       (0 ≤ sulfate ∧ sulfate ≤ 1000) ∧ (0 ≤ conductivity ∧ conductivity ≤ 2000) ∧
       (0 ≤ organic_carbon ∧ organic_carbon ≤ 50) ∧
       (0 ≤ trihalomethanes ∧ trihalomethanes ≤ 200) ∧
       (0 ≤ turbidity ∧ turbidity ≤ 20))) ∧
    ((validate_input_parameters ph hardness solids chloramines sulfate
        conductivity organic_carbon trihalomethanes turbidity).2 =
      (if ¬ ((0:ℚ) ≤ ph ∧ ph ≤ 14) then [outsideRangeMsg "ph" ph 0 14] else []) ++
      (if ¬ ((0:ℚ) ≤ hardness ∧ hardness ≤ 1000) then [outsideRangeMsg "hardness" hardness 0 1000] else []) ++
      (if ¬ ((0:ℚ) ≤ solids ∧ solids ≤ 100000) then [outsideRangeMsg "solids" solids 0 100000] else []) ++
      (if ¬ ((0:ℚ) ≤ chloramines ∧ chloramines ≤ 20) then [outsideRangeMsg "chloramines" chloramines 0 20] else []) ++
      (if ¬ ((0:ℚ) ≤ sulfate ∧ sulfate ≤ 1000) then [outsideRangeMsg "sulfate" sulfate 0 1000] else []) ++
      (if ¬ ((0:ℚ) ≤ conductivity ∧ conductivity ≤ 2000) then [outsideRangeMsg "conductivity" conductivity 0 2000] else []) ++
      (if ¬ ((0:ℚ) ≤ organic_carbon ∧ organic_carbon ≤ 50) then [outsideRangeMsg "organic_carbon" organic_carbon 0 50] else []) ++
      (if ¬ ((0:ℚ) ≤ trihalomethanes ∧ trihalomethanes ≤ 200) then [outsideRangeMsg "trihalomethanes" trihalomethanes 0 200] else []) ++
      (if ¬ ((0:ℚ) ≤ turbidity ∧ turbidity ≤ 20) then [outsideRangeMsg "turbidity" turbidity 0 20] else [])) ∧
    ((validate_input_parameters ph hardness solids chloramines sulfate
        conductivity organic_carbon trihalomethanes turbidity).1 = true ↔
      (validate_input_parameters ph hardness solids chloramines sulfate
        conductivity organic_carbon trihalomethanes turbidity).2 = []) := by
  have h2 : (validate_input_parameters ph hardness solids chloramines sulfate
      conductivity organic_carbon trihalomethanes turbidity).2 =
      (if ¬ ((0:ℚ) ≤ ph ∧ ph ≤ 14) then [outsideRangeMsg "ph" ph 0 14] else []) ++
      (if ¬ ((0:ℚ) ≤ hardness ∧ hardness ≤ 1000) then [outsideRangeMsg "hardness" hardness 0 1000] else []) ++
      (if ¬ ((0:ℚ) ≤ solids ∧ solids ≤ 100000) then [outsideRangeMsg "solids" solids 0 100000] else []) ++
      (if ¬ ((0:ℚ) ≤ chloramines ∧ chloramines ≤ 20) then [outsideRangeMsg "chloramines" chloramines 0 20] else []) ++
      (if ¬ ((0:ℚ) ≤ sulfate ∧ sulfate ≤ 1000) then [outsideRangeMsg "sulfate" sulfate 0 1000] else []) ++
      (if ¬ ((0:ℚ) ≤ conductivity ∧ conductivity ≤ 2000) then [outsideRangeMsg "conductivity" conductivity 0 2000] else []) ++
      (if ¬ ((0:ℚ) ≤ organic_carbon ∧ organic_carbon ≤ 50) then [outsideRangeMsg "organic_carbon" organic_carbon 0 50] else []) ++
      (if ¬ ((0:ℚ) ≤ trihalomethanes ∧ trihalomethanes ≤ 200) then [outsideRangeMsg "trihalomethanes" trihalomethanes 0 200] else []) ++
      (if ¬ ((0:ℚ) ≤ turbidity ∧ turbidity ≤ 20) then [outsideRangeMsg "turbidity" turbidity 0 20] else []) := by
    show (validate_input_parameters ph hardness solids chloramines sulfate
      conductivity organic_carbon trihalomethanes turbidity).2 = _
    simp [validate_input_parameters, ranges, List.lookup, warn_step_append]
  have hfst : (validate_input_parameters ph hardness solids chloramines sulfate
      conductivity organic_carbon trihalomethanes turbidity).1 =
      ((validate_input_parameters ph hardness solids chloramines sulfate
        conductivity organic_carbon trihalomethanes turbidity).2.length == 0) := rfl
  refine ⟨?_, h2, ?_⟩
  · rw [hfst, h2]
    simp only [List.length_append, beq_iff_eq, Nat.add_eq_zero]
    simp [warnPiece_len_zero]
    tauto
  · rw [hfst]
    simp [List.length_eq_zero]

/-- C3: `predict_with_saved_model` assembles the feature row in the
fixed order, applies the imputer first, the scaler second, and only
then the classifier; the probability, when available, is computed on
the same scaled row. -/
theorem predict_with_saved_model_pipeline (mc : ModelComponents)
    (ph hardness solids chloramines sulfate conductivity organic_carbon
     trihalomethanes turbidity : ℚ) :
    predict_with_saved_model mc ph hardness solids chloramines sulfate
      conductivity organic_carbon trihalomethanes turbidity =
      (mc.model_predict (mc.scaler_transform (mc.imputer_transform
         [ph, hardness, solids, chloramines, sulfate, conductivity,
          organic_carbon, trihalomethanes, turbidity])),
       mc.model_predict_proba.map (fun f => f (mc.scaler_transform
         (mc.imputer_transform
           [ph, hardness, solids, chloramines, sulfate, conductivity,
            organic_carbon, trihalomethanes, turbidity])))) := by
  rcases mc with ⟨imp, sc, mp, proba, fns⟩
  cases proba <;> rfl

/-- C5: the potability label is interpreted consistently: raw
prediction 1 gives `is_safe_to_drink` true and status "Safe to drink",
any other raw prediction gives false and "Not safe to drink", both in
`get_water_quality_prediction` and in the HTTP response object. -/
theorem potability_interpretation_consistent (mc : ModelComponents)
    (ph hardness solids chloramines sulfate conductivity organic_carbon
     trihalomethanes turbidity : ℚ) (return_details : Bool)
    (prediction : Int) (probability : Option (ℚ × ℚ)) (p : WaterParams)
    (is_valid : Bool) (warnings : List String) :
    ((get_water_quality_prediction mc ph hardness solids chloramines sulfate
        conductivity organic_carbon trihalomethanes turbidity
        return_details).is_safe_to_drink =
      ((get_water_quality_prediction mc ph hardness solids chloramines sulfate
        conductivity organic_carbon trihalomethanes turbidity
        return_details).prediction == 1)) ∧
    ((get_water_quality_prediction mc ph hardness solids chloramines sulfate
        conductivity organic_carbon trihalomethanes turbidity
        return_details).safety_status =
      if (get_water_quality_prediction mc ph hardness solids chloramines
          sulfate conductivity organic_carbon trihalomethanes turbidity
          return_details).prediction == 1
      then "Safe to drink" else "Not safe to drink") ∧
    ((buildPredictionResponse prediction probability p is_valid
        warnings).raw_prediction = prediction) ∧
    ((buildPredictionResponse prediction probability p is_valid
        warnings).is_safe_to_drink = (prediction == 1)) ∧
    ((buildPredictionResponse prediction probability p is_valid
        warnings).safety_status =
      if prediction == 1 then "Safe to drink" else "Not safe to drink") :=
  ⟨rfl, rfl, rfl, rfl, rfl⟩

/-- C9: with the model not loaded, every request gets the 503
model-not-loaded reply: the outcome is independent of the body, so no
body parsing, validation or prediction takes place. -/
theorem model_not_loaded_rejects_all (mc : ModelComponents)
    (body : Option (List (String × JVal))) :
    predict_water_quality false mc body = ApiResult.modelNotLoaded := rfl

/-- C6: with the model loaded and a non-empty body, a request missing
some of the nine required names gets the 400 missing-parameters reply
listing exactly the missing names (in `required_params` order), and a
request whose nine values are present but not all float-convertible
gets the 400 invalid-values reply; in both cases the outcome is
independent of the model components, so the predictor is not invoked. -/
theorem missing_or_invalid_params_rejected (mc mc2 : ModelComponents)
    (data : List (String × JVal)) (hne : data ≠ [])
    (hbad : missing_params data ≠ [] ∨ extract_parameters data = none) :
    (predict_water_quality true mc (some data) =
      (if missing_params data = [] then ApiResult.invalidParamValues
       else ApiResult.missingParams (missing_params data))) ∧
    predict_water_quality true mc (some data) =
      predict_water_quality true mc2 (some data) := by
  have hne2 : data.isEmpty = false := by
    cases data with
    | nil => exact absurd rfl hne
    | cons a l => rfl
  by_cases hmiss : missing_params data = []
  · rcases hbad with h | h
    · exact absurd hmiss h
    · constructor <;> simp [predict_water_quality, hne2, hmiss, h]
  · have h3 : (missing_params data).isEmpty = false := by
      cases hm : missing_params data with
      | nil => exact absurd hm hmiss
      | cons a l => rfl
    constructor <;> simp [predict_water_quality, hne2, h3, hmiss]

/-- C6 witness: a body carrying only `ph` is answered with the
missing-parameters reply listing the other eight names, identically for
two different model components. -/
theorem missing_or_invalid_params_rejected_witness :
    (predict_water_quality true mcWithProba (some [("ph", JVal.num 7)]) =
      (if missing_params [("ph", JVal.num 7)] = [] then ApiResult.invalidParamValues
       else ApiResult.missingParams (missing_params [("ph", JVal.num 7)]))) ∧
    predict_water_quality true mcWithProba (some [("ph", JVal.num 7)]) =
      predict_water_quality true mcNoProba (some [("ph", JVal.num 7)]) :=
  missing_or_invalid_params_rejected mcWithProba mcNoProba
    [("ph", JVal.num 7)] (by decide) (Or.inl (by decide))

/-- C1 (amended): with the model loaded and a classifier exposing
`predict_proba`, every non-empty body carrying all nine parameters with
float-convertible values is answered with the success response, whose
validation section carries exactly the outcome of
`validate_input_parameters` — out-of-range values only produce warnings
there and never cause a rejection. -/
theorem predict_ok_flags_out_of_range (mc : ModelComponents)
    (f : List ℚ → ℚ × ℚ) (hf : mc.model_predict_proba = some f)
    (data : List (String × JVal)) (hne : data ≠ [])
    (p : WaterParams) (hext : extract_parameters data = some p)
    (hmiss : missing_params data = []) :
    predict_water_quality true mc (some data) =
      ApiResult.ok (buildPredictionResponse
        (predictWaterQuality mc p.ph p.hardness p.solids p.chloramines
          p.sulfate p.conductivity p.organic_carbon p.trihalomethanes
          p.turbidity).1
        (predictWaterQuality mc p.ph p.hardness p.solids p.chloramines
          p.sulfate p.conductivity p.organic_carbon p.trihalomethanes
          p.turbidity).2
        p
        (validate_input_parameters p.ph p.hardness p.solids p.chloramines
          p.sulfate p.conductivity p.organic_carbon p.trihalomethanes
          p.turbidity).1
        (validate_input_parameters p.ph p.hardness p.solids p.chloramines
          p.sulfate p.conductivity p.organic_carbon p.trihalomethanes
          p.turbidity).2) ∧
    (buildPredictionResponse
        (predictWaterQuality mc p.ph p.hardness p.solids p.chloramines
          p.sulfate p.conductivity p.organic_carbon p.trihalomethanes
          p.turbidity).1
        (predictWaterQuality mc p.ph p.hardness p.solids p.chloramines
          p.sulfate p.conductivity p.organic_carbon p.trihalomethanes
          p.turbidity).2
        p
        (validate_input_parameters p.ph p.hardness p.solids p.chloramines
          p.sulfate p.conductivity p.organic_carbon p.trihalomethanes
          p.turbidity).1
        (validate_input_parameters p.ph p.hardness p.solids p.chloramines
          p.sulfate p.conductivity p.organic_carbon p.trihalomethanes
          p.turbidity).2).validation_warnings =
      (validate_input_parameters p.ph p.hardness p.solids p.chloramines
        p.sulfate p.conductivity p.organic_carbon p.trihalomethanes
        p.turbidity).2 := by
  have hne2 : data.isEmpty = false := by
    cases data with
    | nil => exact absurd rfl hne
    | cons a l => rfl
  refine ⟨?_, rfl⟩
  simp [predict_water_quality, hne2, hmiss, hext, predictWaterQuality,
    predict_with_saved_model, hf]

/-- C1 witness: a body whose `ph` is 99 (outside 0-14) is still
answered with the success response, with `is_valid` false. -/
theorem predict_ok_flags_out_of_range_witness :
    predict_water_quality true mcWithProba (some outOfRangeBody) =
      ApiResult.ok (buildPredictionResponse
        (predictWaterQuality mcWithProba outOfRangeParams.ph
          outOfRangeParams.hardness outOfRangeParams.solids
          outOfRangeParams.chloramines outOfRangeParams.sulfate
          outOfRangeParams.conductivity outOfRangeParams.organic_carbon
          outOfRangeParams.trihalomethanes outOfRangeParams.turbidity).1
        (predictWaterQuality mcWithProba outOfRangeParams.ph
          outOfRangeParams.hardness outOfRangeParams.solids
          outOfRangeParams.chloramines outOfRangeParams.sulfate
          outOfRangeParams.conductivity outOfRangeParams.organic_carbon
          outOfRangeParams.trihalomethanes outOfRangeParams.turbidity).2
        outOfRangeParams
        (validate_input_parameters outOfRangeParams.ph
          outOfRangeParams.hardness outOfRangeParams.solids
          outOfRangeParams.chloramines outOfRangeParams.sulfate
          outOfRangeParams.conductivity outOfRangeParams.organic_carbon
          outOfRangeParams.trihalomethanes outOfRangeParams.turbidity).1
        (validate_input_parameters outOfRangeParams.ph
          outOfRangeParams.hardness outOfRangeParams.solids
          outOfRangeParams.chloramines outOfRangeParams.sulfate
          outOfRangeParams.conductivity outOfRangeParams.organic_carbon
          outOfRangeParams.trihalomethanes outOfRangeParams.turbidity).2) ∧
    (validate_input_parameters 99 200 20000 7 300 400 15 70 4).1 = false :=
  ⟨(predict_ok_flags_out_of_range mcWithProba (fun _ => (0, 1)) rfl
      outOfRangeBody (by decide) outOfRangeParams rfl rfl).1,
    by decide⟩

/-- C1 counterexample to the unamended claim: when the persisted
classifier has no `predict_proba` (the `SVM` candidate), a request with
all nine parameters numeric and in range is not answered with a success
response — the handler returns the 500 prediction-failed reply, because
`logger.info` at `main.py` line 205 evaluates `max(probability)` on
`None`. -/
theorem predict_ok_claim_counterexample :
    (validate_input_parameters 7 200 20000 7 300 400 15 70 4).1 = true ∧
    predict_water_quality true mcNoProba (some inRangeBody) =
      ApiResult.predictionFailed := by
  constructor
  · decide
  · rfl

/-- C4: evaluation at the failing configuration — for a classifier
whose `predict_proba` raises `AttributeError`,
`predict_with_saved_model` returns `None` in place of the probability
array, and the handler then answers 500 prediction-failed instead of
the success response with null probability scores, because
`logger.info(f"... {max(probability):.3f}")` at `main.py` line 205
raises `TypeError` before `return jsonify(response)` is reached. -/
theorem no_proba_classifier_gets_500 :
    (predict_with_saved_model mcNoProba 6 150 15000 6 250 350 12 60 3).2 =
      none ∧
    predict_water_quality true mcNoProba (some inRangeBody2) =
      ApiResult.predictionFailed := by
  constructor
  · rfl
  · rfl

lemma save_dir_lookups {α : Type} (bm sc im : α) (md : Metadata)
    (cmp : List (String × ℚ × String)) (t : String) (dir0 : ModelDir α) :
    lookupPickle ((comparison_filename t, FileContent.comparisonJson cmp) ::
      (metadata_filename t, FileContent.metaJson md) ::
      (imputer_filename t, FileContent.pickle im) ::
      (scaler_filename t, FileContent.pickle sc) ::
      (model_filename t, FileContent.pickle bm) :: dir0)
      (model_filename t) = some bm ∧
    lookupPickle ((comparison_filename t, FileContent.comparisonJson cmp) ::
      (metadata_filename t, FileContent.metaJson md) ::
      (imputer_filename t, FileContent.pickle im) ::
      (scaler_filename t, FileContent.pickle sc) ::
      (model_filename t, FileContent.pickle bm) :: dir0)
      (scaler_filename t) = some sc ∧
    lookupPickle ((comparison_filename t, FileContent.comparisonJson cmp) ::
      (metadata_filename t, FileContent.metaJson md) ::
      (imputer_filename t, FileContent.pickle im) ::
      (scaler_filename t, FileContent.pickle sc) ::
      (model_filename t, FileContent.pickle bm) :: dir0)
      (imputer_filename t) = some im ∧
    lookupMetaJson ((comparison_filename t, FileContent.comparisonJson cmp) ::
      (metadata_filename t, FileContent.metaJson md) ::
      (imputer_filename t, FileContent.pickle im) ::
      (scaler_filename t, FileContent.pickle sc) ::
      (model_filename t, FileContent.pickle bm) :: dir0)
      (metadata_filename t) = some md := by
  have hmc : model_filename t ≠ comparison_filename t := by
    unfold model_filename comparison_filename
    exact sandwich_ne _ _ _ _ t (by decide)
  have hmm : model_filename t ≠ metadata_filename t := by
    unfold model_filename metadata_filename
    exact sandwich_ne _ _ _ _ t (by decide)
  have hmi : model_filename t ≠ imputer_filename t := by
    unfold model_filename imputer_filename
    exact sandwich_ne _ _ _ _ t (by decide)
  have hms : model_filename t ≠ scaler_filename t := by
    unfold model_filename scaler_filename
    exact sandwich_ne _ _ _ _ t (by decide)
  have hsc : scaler_filename t ≠ comparison_filename t := by
    unfold scaler_filename comparison_filename
    exact sandwich_ne _ _ _ _ t (by decide)
  have hsm : scaler_filename t ≠ metadata_filename t := by
    unfold scaler_filename metadata_filename
    exact sandwich_ne _ _ _ _ t (by decide)
  have hsi : scaler_filename t ≠ imputer_filename t := by
    unfold scaler_filename imputer_filename
    exact sandwich_ne _ _ _ _ t (by decide)
  have hic : imputer_filename t ≠ comparison_filename t := by
    unfold imputer_filename comparison_filename
    exact sandwich_ne _ _ _ _ t (by decide)
  have him : imputer_filename t ≠ metadata_filename t := by
    unfold imputer_filename metadata_filename
    exact sandwich_ne _ _ _ _ t (by decide)
  have hdc : metadata_filename t ≠ comparison_filename t := by
    unfold metadata_filename comparison_filename
    exact sandwich_ne _ _ _ _ t (by decide)
  refine ⟨?_, ?_, ?_, ?_⟩
  · unfold lookupPickle
    rw [lookup_cons_ne _ _ _ _ hmc, lookup_cons_ne _ _ _ _ hmm,
      lookup_cons_ne _ _ _ _ hmi, lookup_cons_ne _ _ _ _ hms]
    simp [List.lookup]
  · unfold lookupPickle
    rw [lookup_cons_ne _ _ _ _ hsc, lookup_cons_ne _ _ _ _ hsm,
      lookup_cons_ne _ _ _ _ hsi]
    simp [List.lookup]
  · unfold lookupPickle
    rw [lookup_cons_ne _ _ _ _ hic, lookup_cons_ne _ _ _ _ him]
    simp [List.lookup]
  · unfold lookupMetaJson
    rw [lookup_cons_ne _ _ _ _ hdc]
    simp [List.lookup]

/-- C7: save/load round trip — after `save_trained_model` persists the
best model, scaler, imputer and metadata under timestamp `t`,
`load_trained_model` on the resulting directory with the same timestamp
returns exactly the saved objects, and its metadata records the saved
model name, accuracy and feature names. -/
theorem save_load_roundtrip {α : Type} (results : List (String × ModelResult α))
    (best : String) (rb : ModelResult α) (hlk : results.lookup best = some rb)
    (typeName : α → String) (scaler imputer : α) (feature_names : List String)
    (t : String) (dir0 : ModelDir α) :
    (save_trained_model results best typeName scaler imputer feature_names
        t dir0).map (fun out => load_trained_model out.2 (some t)) =
      some (some ⟨rb.model, scaler, imputer,
        saved_metadata best (typeName rb.model) rb.accuracy
          feature_names t⟩) := by
  obtain ⟨e1, e2, e3, e4⟩ := save_dir_lookups rb.model scaler imputer
    (saved_metadata best (typeName rb.model) rb.accuracy feature_names t)
    (results.map (fun nr => (nr.1, nr.2.accuracy, typeName nr.2.model)))
    t dir0
  simp [save_trained_model, hlk, load_trained_model, e1, e2, e3, e4]

/-- C7 witness: the round trip evaluated on a concrete results dict,
scaler 5, imputer 6 and timestamp 20250101_000000. -/
theorem save_load_roundtrip_witness :
    (save_trained_model c7Results "Random Forest"
        (fun _ => "RandomForestClassifier") 5 6 ["ph"] "20250101_000000"
        ([] : ModelDir ℕ)).map
      (fun out => load_trained_model out.2 (some "20250101_000000")) =
      some (some ⟨11, 5, 6,
        saved_metadata "Random Forest" "RandomForestClassifier"
          7 ["ph"] "20250101_000000"⟩) :=
  save_load_roundtrip c7Results "Random Forest"
    { model := 11, accuracy := 7, predictions := [1, 0] } (by decide)
    (fun _ => "RandomForestClassifier") 5 6 ["ph"] "20250101_000000" []

/-- C8: over a results dict keyed by the seven trained candidates,
`best_entry` (train.py line 99) picks an entry of the dict whose
accuracy is maximal — every candidate's accuracy is at most the best
one's — and `save_trained_model` called with that name persists exactly
that entry's model together with the given scaler and imputer. -/
theorem best_model_selection_and_persistence {α : Type}
    (results : List (String × ModelResult α)) (e : String × ModelResult α)
    (hkeys : results.map Prod.fst = trained_model_names)
    (hbe : best_entry results = some e)
    (typeName : α → String) (scaler imputer : α) (feature_names : List String)
    (t : String) (dir0 : ModelDir α) :
    (results.all (fun p => decide (p.2.accuracy ≤ e.2.accuracy)) = true) ∧
    (save_trained_model results e.1 typeName scaler imputer feature_names
        t dir0).map
      (fun out => (lookupPickle out.2 (model_filename t),
        lookupPickle out.2 (scaler_filename t),
        lookupPickle out.2 (imputer_filename t))) =
      some (some e.2.model, some scaler, some imputer) := by
  have hkey : results.lookup e.1 = some e.2 ∧
      ∀ p ∈ results, p.2.accuracy ≤ e.2.accuracy := by
    cases results with
    | nil =>
      simp at hkeys
      exact absurd hkeys (by decide)
    | cons r0 rest =>
      obtain ⟨hmem, hinit, hall⟩ := bestFold_spec rest r0
      have hbe2 : e = rest.foldl
          (fun b p => if b.2.accuracy < p.2.accuracy then p else b) r0 := by
        have h0 : some (rest.foldl
            (fun b p => if b.2.accuracy < p.2.accuracy then p else b) r0) =
            some e := hbe
        exact (Option.some.injEq _ _ ▸ h0).symm
      have hemem : e ∈ r0 :: rest := by
        rw [hbe2]
        rcases hmem with h | h
        · rw [h]; exact List.mem_cons_self r0 rest
        · exact List.mem_cons_of_mem r0 h
      have hge : ∀ p ∈ r0 :: rest, p.2.accuracy ≤ e.2.accuracy := by
        intro p hp
        rcases List.mem_cons.mp hp with h | h
        · rw [h, hbe2]; exact hinit
        · rw [hbe2]; exact hall p h
      have hnd : ((r0 :: rest).map Prod.fst).Nodup := by
        rw [hkeys]; decide
      exact ⟨lookup_of_mem_of_nodup (r0 :: rest) e hemem hnd, hge⟩
  obtain ⟨hlk, hge⟩ := hkey
  obtain ⟨e1, e2, e3, _⟩ := save_dir_lookups e.2.model scaler imputer
    (saved_metadata e.1 (typeName e.2.model) e.2.accuracy feature_names t)
    (results.map (fun nr => (nr.1, nr.2.accuracy, typeName nr.2.model)))
    t dir0
  constructor
  · rw [List.all_eq_true]
    intro p hp
    exact decide_eq_true (hge p hp)
  · simp [save_trained_model, hlk, e1, e2, e3]

/-- C8 witness: on the concrete seven-candidate dict the best entry is
the SVM one, every accuracy is at most 68, and saving persists model 4
with the given scaler and imputer. -/
theorem best_model_selection_and_persistence_witness :
    (c8Results.all (fun p =>
      decide (p.2.accuracy ≤ c8Best.2.accuracy)) = true) ∧
    (save_trained_model c8Results c8Best.1
        (fun _ => "SVC") 21 22 ["ph"] "20250101_000000"
        ([] : ModelDir ℕ)).map
      (fun out => (lookupPickle out.2 (model_filename "20250101_000000"),
        lookupPickle out.2 (scaler_filename "20250101_000000"),
        lookupPickle out.2 (imputer_filename "20250101_000000"))) =
      some (some c8Best.2.model, some 21, some 22) :=
  best_model_selection_and_persistence c8Results c8Best
    (by decide) (by decide) (fun _ => "SVC") 21 22 ["ph"]
    "20250101_000000" []

/-- C10: when no timestamp is given and the directory holds at least
one `water_quality_model_*` file, `load_trained_model` selects the
extracted timestamp string that is lexicographically greatest (it is
one of the extracted timestamps, and no extracted timestamp compares
strictly above it), and then loads exactly as if called with that
timestamp — i.e. the model, scaler, imputer and metadata files sharing
it. -/
theorem latest_timestamp_selected {α : Type} (dir : ModelDir α) (t : String)
    (hc : chosen_timestamp dir = some t) :
    t ∈ extracted_timestamps dir ∧
    ((extracted_timestamps dir).all
      (fun s => !(pyStrLt t.data s.data)) = true) ∧
    load_trained_model dir none = load_trained_model dir (some t) := by
  have hload : load_trained_model dir none = load_trained_model dir (some t) := by
    simp [load_trained_model, hc]
  unfold chosen_timestamp at hc
  by_cases hemp : (model_files dir).isEmpty
  · rw [if_pos hemp] at hc
    exact absurd hc (by simp)
  · rw [if_neg hemp] at hc
    cases hx : extracted_timestamps dir with
    | nil =>
      rw [hx] at hc
      simp [pyMax] at hc
    | cons x xs =>
      rw [hx] at hc
      have ht : t = xs.foldl
          (fun a b => if pyStrLt a.data b.data then b else a) x := by
        have h0 : xs.foldl
            (fun a b => if pyStrLt a.data b.data then b else a) x = t := by
          simpa [pyMax] using hc
        exact h0.symm
      obtain ⟨hmem, hinit, hall⟩ := pyFoldMax_spec xs x
      refine ⟨?_, ?_, hload⟩
      · rw [ht]
        rcases hmem with h | h
        · rw [h]; exact List.mem_cons_self x xs
        · exact List.mem_cons_of_mem x h
      · rw [List.all_eq_true]
        intro s hs
        rcases List.mem_cons.mp hs with h | h
        · subst h
          simp [ht, hinit]
        · simp [ht, hall s h]

/-- C10 witness: on the concrete two-generation directory the chosen
timestamp is 20250102_000000 and loading without a timestamp equals
loading with it. -/
theorem latest_timestamp_selected_witness :
    "20250102_000000" ∈ extracted_timestamps demoDir ∧
    ((extracted_timestamps demoDir).all
      (fun s => !(pyStrLt "20250102_000000".data s.data)) = true) ∧
    load_trained_model demoDir none =
      load_trained_model demoDir (some "20250102_000000") :=
  latest_timestamp_selected demoDir "20250102_000000" (by decide)
